import Mathlib

/-!
Shallow embedding of src/main.py, the Istanbul assistant Telegram bot:
a keyed TTL cache (one fixed key for currency rates, one key per weather
coordinate pair) over upstream HTTP fetches, plus message rendering.

Modelling conventions:
* Times (epoch seconds) and numeric payload values are rationals.
* CPython float formatting (.1f, .2f) is modelled as exact rational
  rounding with ties to even, which agrees with CPython wherever the
  binary float involved is not itself an artifact of representation.
* An upstream HTTP interaction is a parameter of the function that would
  perform it: a failed request, timeout or unparsable body is None, a
  parsed JSON body is a structured value whose optional fields model
  missing or null JSON members.
* The asyncio lock makes each handler body sequentially atomic, so each
  handler is a pure state transformer on the cache.
-/

namespace IstanbulAssistant

/-- Model of CACHE_TTL (main.py line 23), in seconds. -/
def CACHE_TTL : ℚ := 120

/-- Fixed-width decimal rendering: the k low decimal digits of n, most
significant first, zero padded to exactly k characters. -/
def natDigitsPadded (k n : ℕ) : List Char :=
  (List.range k).map (fun i => Nat.digitChar (n / 10 ^ (k - 1 - i) % 10))

/-- Round a rational to the nearest integer, ties to even, as CPython
does when formatting a float at a given precision. -/
def roundHalfEven (q : ℚ) : ℤ :=
  if q - ⌊q⌋ < 1/2 then ⌊q⌋
  else if 1/2 < q - ⌊q⌋ then ⌊q⌋ + 1
  else if ⌊q⌋ % 2 = 0 then ⌊q⌋ else ⌊q⌋ + 1

/-- Model of the Python fixed-point format specifier .kf applied to a
numeric value: sign, integer part, point, exactly k fractional digits. -/
def fmtFixed (k : ℕ) (q : ℚ) : String :=
  let n := roundHalfEven (q * (10 : ℚ) ^ k)
  (if n < 0 then "-" else "")
    ++ toString (n.natAbs / 10 ^ k)
    ++ "."
    ++ String.mk (natDigitsPadded k (n.natAbs % 10 ^ k))

/-- Two-digit zero-padded rendering of a number below 100. -/
def pad2 (n : ℕ) : String :=
  String.mk (natDigitsPadded 2 n)

/-- Model of time.strftime applied with format %H:%M:%S to
time.gmtime of an epoch timestamp (main.py line 61). -/
def fmtClock (t : ℚ) : String :=
  let s : ℕ := (⌊t⌋).toNat % 86400
  pad2 (s / 3600) ++ ":" ++ pad2 (s % 3600 / 60) ++ ":" ++ pad2 (s % 60)

/-- Substring containment on strings, stated as an explicit
decomposition of the character data. -/
def containsStr (s pat : String) : Prop :=
  ∃ a b : List Char, s.data = a ++ pat.data ++ b

/-- Model of one exchangerate-api response as the code reads it: the
HTTP status check of raise_for_status, and the conversion_rates JSON
object as an association list from currency code to rate. -/
structure FxResponse where
  status_ok : Bool
  conversion_rates : List (String × ℚ)
  deriving DecidableEq

/-- Reading one currency code out of a conversion_rates object; None
models the KeyError on a missing code (main.py lines 49-51). -/
def lookupRate (r : FxResponse) (code : String) : Option ℚ :=
  (r.conversion_rates.find? (fun p => p.1 = code)).map Prod.snd

/-- Model of the rates dict built at main.py line 53. -/
structure Rates where
  usd_try : ℚ
  eur_try : ℚ
  try_rub : ℚ
  deriving DecidableEq

/-- Combined outcome of the three upstream currency calls and field
extractions inside the try block (main.py lines 41-53): any non-2xx
status or missing key makes the whole refresh fail (None). -/
def fetchRates (usd eur lira : FxResponse) : Option Rates :=
  if usd.status_ok && eur.status_ok && lira.status_ok then
    match lookupRate usd "TRY", lookupRate eur "TRY", lookupRate lira "RUB" with
    | some a, some b, some c => some ⟨a, b, c⟩
    | _, _, _ => none
  else none

/-- Model of one openweathermap JSON body as the code reads it; a None
field models a missing or null JSON member along that path. -/
structure WeatherPayload where
  name : Option String
  main_temp : Option ℚ
  main_feels_like : Option ℚ
  weather0_description : Option String
  deriving DecidableEq

/-- Entry of the per-coordinate weather cache (main.py line 105). -/
structure WEntry where
  data : WeatherPayload
  time : ℚ
  deriving DecidableEq

/-- Coordinate key of the weather cache: a latitude, longitude pair. -/
abbrev WKey := ℚ × ℚ

/-- Model of the module-level _cache dict (main.py line 24): the rates
snapshot with its refresh timestamp, and the per-coordinate weather
dict as an association list in insertion order. -/
structure CacheState where
  rates : Option Rates
  rates_time : ℚ
  weather : List (WKey × WEntry)
  deriving DecidableEq

/-- Replies a handler can produce, distinguished by their effect: a
plain text reply, a reply that presents the location request keyboard,
and an exception escaping the handler uncaught. -/
inductive BotReply where
  | text (s : String)
  | locPrompt (s : String)
  | uncaught
  deriving DecidableEq

/-- Rendering of the currency message (main.py lines 61-64); tRender is
the wall-clock time at which the f-string evaluates time.gmtime. -/
def currencyMessage (r : Rates) (tRender : ℚ) : String :=
  "💱 Курсы валют (обновленно " ++ fmtClock tRender ++ " UTC):\n"
    ++ "1 USD = " ++ fmtFixed 2 r.usd_try ++ " TRY\n"
    ++ "1 EUR = " ++ fmtFixed 2 r.eur_try ++ " TRY\n"
    ++ "1 TRY = " ++ fmtFixed 2 r.try_rub ++ " RUB"

/-- Failure reply of the currency handler (main.py line 58). -/
def currencyFailText : String := "Не удалось получить курс валют. Попробуй позже."

/-- Slow path of get_currency (main.py lines 40-59): perform the three
upstream calls; on failure reply with the apology and leave the cache
alone, on success store the full snapshot with the post-fetch clock
reading tStore and render the message at clock reading tRender. -/
def currencyRefresh (st : CacheState) (tStore tRender : ℚ)
    (usd eur lira : FxResponse) : CacheState × BotReply :=
  match fetchRates usd eur lira with
  | none => (st, .text currencyFailText)
  | some r =>
      ({ st with rates := some r, rates_time := tStore },
       .text (currencyMessage r tRender))

/-- Model of the get_currency handler (main.py lines 35-65). now is the
clock reading of the freshness check at line 37, tStore that of line 55,
tRender that of line 61. -/
def get_currency (st : CacheState) (now tStore tRender : ℚ)
    (usd eur lira : FxResponse) : CacheState × BotReply :=
  match st.rates with
  | some r =>
      if now - st.rates_time < CACHE_TTL then
        (st, .text (currencyMessage r tRender))
      else currencyRefresh st tStore tRender usd eur lira
  | none => currencyRefresh st tStore tRender usd eur lira

/-- Lookup in the weather dict by coordinate key (dict.get). -/
def wLookup (w : List (WKey × WEntry)) (k : WKey) : Option WEntry :=
  (w.find? (fun p => p.1 = k)).map Prod.snd

/-- Assignment into the weather dict (dict setitem): replace the value
at an existing key in place, else append; matches CPython dict update
semantics on the duplicate-free lists the cache actually holds. -/
def wInsert (w : List (WKey × WEntry)) (k : WKey) (e : WEntry) :
    List (WKey × WEntry) :=
  match w with
  | [] => [(k, e)]
  | p :: ps => if p.1 = k then (k, e) :: ps else p :: wInsert ps k e

/-- Stale-entry sweep at the top of _fetch_weather (main.py lines
83-85): delete every entry whose age at the clock reading now has
reached CACHE_TTL, keeping the rest in order. -/
def sweepWeather (w : List (WKey × WEntry)) (now : ℚ) :
    List (WKey × WEntry) :=
  w.filter (fun p => now - p.2.time < CACHE_TTL)

/-- Model of _fetch_weather (main.py lines 80-107): sweep stale entries,
serve a fresh cached payload if present, otherwise perform the upstream
call (upstream parameter; None is any request, status or JSON-decoding
failure, which the function re-raises) and on success cache the raw
parsed payload with the post-fetch clock reading tStore. The returned
Option is the payload, None modelling the propagated exception. -/
def fetch_weather (st : CacheState) (lat lon : ℚ) (now tStore : ℚ)
    (upstream : Option WeatherPayload) : CacheState × Option WeatherPayload :=
  let w := sweepWeather st.weather now
  match wLookup w (lat, lon) with
  | some e =>
      if now - e.time < CACHE_TTL then ({ st with weather := w }, some e.data)
      else
        match upstream with
        | none => ({ st with weather := w }, none)
        | some d =>
            ({ st with weather := wInsert w (lat, lon) ⟨d, tStore⟩ }, some d)
  | none =>
      match upstream with
      | none => ({ st with weather := w }, none)
      | some d =>
          ({ st with weather := wInsert w (lat, lon) ⟨d, tStore⟩ }, some d)

/-- Fallback location text of main.py line 68. -/
def fallbackLocation : String := "вашего местоположения"

/-- Model of the expression data.get("name") or "вашего местоположения"
(main.py line 68): the fallback replaces an absent, null or empty (a
falsy) name. -/
def pyLocationName (nm : Option String) : String :=
  match nm with
  | some s => if s = "" then fallbackLocation else s
  | none => fallbackLocation

/-- Model of CPython str.upper on one character, for the Latin and
Cyrillic letters this program handles. -/
def pyUpperChar (c : Char) : Char :=
  let n := c.toNat
  if 0x61 ≤ n ∧ n ≤ 0x7a then Char.ofNat (n - 0x20)
  else if 0x430 ≤ n ∧ n ≤ 0x44f then Char.ofNat (n - 0x20)
  else if n = 0x451 then Char.ofNat 0x401
  else c

/-- Model of CPython str.lower on one character, for the Latin and
Cyrillic letters this program handles. -/
def pyLowerChar (c : Char) : Char :=
  let n := c.toNat
  if 0x41 ≤ n ∧ n ≤ 0x5a then Char.ofNat (n + 0x20)
  else if 0x410 ≤ n ∧ n ≤ 0x42f then Char.ofNat (n + 0x20)
  else if n = 0x401 then Char.ofNat 0x451
  else c

/-- Model of CPython str.capitalize (main.py line 76): first character
uppercased, the rest lowercased. -/
def pyCapitalize (s : String) : String :=
  match s.data with
  | [] => ""
  | c :: cs => String.mk (pyUpperChar c :: cs.map pyLowerChar)

/-- Model of _format_weather_message (main.py lines 67-77). None models
the KeyError or IndexError raised when an expected field is absent from
the cached payload; the location name is read first and cannot fail. -/
def format_weather_message (d : WeatherPayload) : Option String :=
  match d.main_temp, d.main_feels_like, d.weather0_description with
  | some t, some f, some ds =>
      some ("🌍 Погода для " ++ pyLocationName d.name ++ ":\n"
        ++ "🌡 Температура: " ++ fmtFixed 1 t ++ "°C\n"
        ++ "🤗 Ощущается как: " ++ fmtFixed 1 f ++ "°C\n"
        ++ "☁️ " ++ pyCapitalize ds)
  | _, _, _ => none

/-- Failure reply of the weather handlers (main.py lines 119 and 144). -/
def weatherFailText : String := "Не удалось получить погоду. Попробуй позже."

/-- Prompt sent when a weather request carries no location
(main.py lines 130-133). -/
def weatherPromptText : String :=
  "Отправь свою геопозицию, чтобы я подсказал погоду рядом с тобой ☀️"

/-- Model of the get_weather handler for a message that exists
(main.py lines 110-133): with a location, fetch (the try only covers
the fetch_weather call, so a formatting KeyError on a malformed cached
payload escapes uncaught); without a location, reply with the keyboard
prompt and touch nothing. -/
def get_weather (st : CacheState) (loc : Option WKey) (now tStore : ℚ)
    (upstream : Option WeatherPayload) : CacheState × BotReply :=
  match loc with
  | some (lat, lon) =>
      match fetch_weather st lat lon now tStore upstream with
      | (st1, some d) =>
          match format_weather_message d with
          | some msg => (st1, .text msg)
          | none => (st1, .uncaught)
      | (st1, none) => (st1, .text weatherFailText)
  | none => (st, .locPrompt weatherPromptText)

/-- Filtering keeps the first match of a search when that match passes
the filter: entries before it are dropped or kept unchanged, and none
of them matched. -/
theorem find?_filter_of_found {α : Type} (l : List α) (p f : α → Bool) (a : α)
    (hfind : l.find? p = some a) (hf : f a = true) :
    (l.filter f).find? p = some a := by
  induction l with
  | nil => simp [List.find?] at hfind
  | cons x xs ih =>
      rw [List.filter_cons]
      cases hx : p x with
      | true =>
          rw [List.find?_cons_of_pos _ hx] at hfind
          obtain rfl : x = a := by injection hfind
          rw [if_pos hf, List.find?_cons_of_pos _ hx]
      | false =>
          rw [List.find?_cons_of_neg _ (by simp [hx])] at hfind
          by_cases hfx : f x = true
          · rw [if_pos hfx, List.find?_cons_of_neg _ (by simp [hx])]
            exact ih hfind
          · rw [if_neg hfx]
            exact ih hfind

/-- Filtering a list with no match of a search leaves no match. -/
theorem find?_filter_none {α : Type} (l : List α) (p f : α → Bool)
    (hfind : l.find? p = none) : (l.filter f).find? p = none := by
  induction l with
  | nil => simp [List.filter]
  | cons x xs ih =>
      rw [List.filter_cons]
      cases hx : p x with
      | true => rw [List.find?_cons_of_pos _ hx] at hfind; exact absurd hfind (by simp)
      | false =>
          rw [List.find?_cons_of_neg _ (by simp [hx])] at hfind
          by_cases hfx : f x = true
          · rw [if_pos hfx, List.find?_cons_of_neg _ (by simp [hx])]
            exact ih hfind
          · rw [if_neg hfx]
            exact ih hfind

/-- Sweeping preserves an entry that is fresh at the sweeping time. -/
theorem wLookup_sweepWeather (w : List (WKey × WEntry)) (now : ℚ) (k : WKey)
    (e : WEntry) (h1 : wLookup w k = some e) (h2 : now - e.time < CACHE_TTL) :
    wLookup (sweepWeather w now) k = some e := by
  unfold wLookup at h1 ⊢
  rcases Option.map_eq_some'.mp h1 with ⟨pe, hfind, hsnd⟩
  unfold sweepWeather
  rw [find?_filter_of_found _ _ _ _ hfind (by simp [hsnd, h2])]
  simp [hsnd]

/-- Sweeping never introduces an entry for an absent key. -/
theorem wLookup_sweepWeather_none (w : List (WKey × WEntry)) (now : ℚ) (k : WKey)
    (h : wLookup w k = none) : wLookup (sweepWeather w now) k = none := by
  unfold wLookup at h ⊢
  unfold sweepWeather
  rw [find?_filter_none _ _ _ (by simpa using h)]
  rfl

/-- Assignment stores its value under its own key. -/
theorem wLookup_wInsert_self (w : List (WKey × WEntry)) (k : WKey) (e : WEntry) :
    wLookup (wInsert w k e) k = some e := by
  induction w with
  | nil => simp [wInsert, wLookup, List.find?]
  | cons p ps ih =>
      by_cases h : p.1 = k
      · simp [wInsert, h, wLookup, List.find?]
      · simpa [wInsert, h, wLookup, List.find?] using ih

/-- Assignment under one key leaves every other key unchanged. -/
theorem wLookup_wInsert_ne (w : List (WKey × WEntry)) (k k2 : WKey) (e : WEntry)
    (hne : k2 ≠ k) : wLookup (wInsert w k e) k2 = wLookup w k2 := by
  induction w with
  | nil => simp [wInsert, wLookup, List.find?, hne, Ne.symm hne]
  | cons p ps ih =>
      by_cases h : p.1 = k
      · simp [wInsert, h, wLookup, List.find?, Ne.symm hne, hne]
      · by_cases h2 : p.1 = k2
        · simp [wInsert, h, wLookup, List.find?, h2, hne, Ne.symm hne]
        · simpa [wInsert, h, wLookup, List.find?, h2] using ih

/-- An entry found after the sweep is fresh at the sweep time. -/
theorem sweepWeather_found_fresh (w : List (WKey × WEntry)) (now : ℚ) (k : WKey)
    (e : WEntry) (h : wLookup (sweepWeather w now) k = some e) :
    now - e.time < CACHE_TTL := by
  unfold wLookup sweepWeather at h
  rcases Option.map_eq_some'.mp h with ⟨pe, hfind, hsnd⟩
  have hmem := List.mem_of_find?_eq_some hfind
  rw [List.mem_filter] at hmem
  have hp := hmem.2
  simp only [decide_eq_true_eq] at hp
  rwa [hsnd] at hp

/-- Evaluation of fetch_weather on a fresh hit after the sweep. -/
theorem fetch_weather_hit (st : CacheState) (lat lon now tS : ℚ)
    (up : Option WeatherPayload) (e : WEntry)
    (h : wLookup (sweepWeather st.weather now) (lat, lon) = some e)
    (hf : now - e.time < CACHE_TTL) :
    fetch_weather st lat lon now tS up =
      ({ st with weather := sweepWeather st.weather now }, some e.data) := by
  unfold fetch_weather
  simp [h, hf]

/-- Evaluation of fetch_weather on a cache miss with a failing upstream
interaction. -/
theorem fetch_weather_miss_fail (st : CacheState) (lat lon now tS : ℚ)
    (h : wLookup (sweepWeather st.weather now) (lat, lon) = none) :
    fetch_weather st lat lon now tS none =
      ({ st with weather := sweepWeather st.weather now }, none) := by
  unfold fetch_weather
  simp [h]

/-- Evaluation of fetch_weather on a cache miss with a successful
upstream interaction. -/
theorem fetch_weather_miss_ok (st : CacheState) (lat lon now tS : ℚ)
    (d : WeatherPayload)
    (h : wLookup (sweepWeather st.weather now) (lat, lon) = none) :
    fetch_weather st lat lon now tS (some d) =
      ({ st with weather := wInsert (sweepWeather st.weather now) (lat, lon) ⟨d, tS⟩ },
       some d) := by
  unfold fetch_weather
  simp [h]

/-- Evaluation of get_currency on a fresh cached snapshot. -/
theorem get_currency_fresh (st : CacheState) (now tS tR : ℚ)
    (usd eur lira : FxResponse) (r : Rates)
    (hr : st.rates = some r) (h : now - st.rates_time < CACHE_TTL) :
    get_currency st now tS tR usd eur lira = (st, .text (currencyMessage r tR)) := by
  simp [get_currency, hr, h]

/-- Evaluation of get_currency when no fresh snapshot is cached: the
slow path runs. -/
theorem get_currency_stale (st : CacheState) (now tS tR : ℚ)
    (usd eur lira : FxResponse)
    (h : st.rates = none ∨ CACHE_TTL ≤ now - st.rates_time) :
    get_currency st now tS tR usd eur lira =
      currencyRefresh st tS tR usd eur lira := by
  rcases h with h | h
  · simp [get_currency, h]
  · cases hr : st.rates with
    | none => simp [get_currency, hr]
    | some r => simp [get_currency, hr, not_lt.mpr h]

/-- Demonstration payload reused by the concrete witnesses below. -/
def demoPayload : WeatherPayload := ⟨some "Стамбул", some 18, some 17, some "ясно"⟩

/-- Demonstration cache state reused by the concrete witnesses below:
a rates snapshot stored at time 10 and one weather entry at (41, 29)
stored at time 10. -/
def demoState : CacheState :=
  ⟨some ⟨41, 45, 3⟩, 10, [((41, 29), ⟨demoPayload, 10⟩)]⟩

/-- Demonstration upstream currency response reused by the witnesses. -/
def demoFx : FxResponse := ⟨true, [("TRY", 41), ("RUB", 3)]⟩

/-- C8: a weather request that carries no location gets the keyboard
prompt asking for the location, not the failure text; the cache state
is returned untouched and the result does not depend on any upstream
interaction, so none is performed. -/
theorem no_location_weather_request_prompts
    (st : CacheState) (now tS : ℚ) (up : Option WeatherPayload) :
    get_weather st none now tS up = (st, .locPrompt weatherPromptText)
    ∧ BotReply.locPrompt weatherPromptText ≠ .text weatherFailText :=
  ⟨rfl, by simp⟩

/-- C2: a cache entry younger than CACHE_TTL is served as stored, for
any upstream responses (so no fetch is consulted), leaving the currency
state untouched; hence two reads within TTL of each other with no
intervening write return the identical cached value, in both domains. -/
theorem fresh_cache_read_serves_stored_value
    (st : CacheState) (r : Rates) (now1 tS1 tR1 now2 tS2 tR2 : ℚ)
    (usd1 eur1 lira1 usd2 eur2 lira2 : FxResponse)
    (lat lon : ℚ) (e : WEntry) (wnow1 wnow2 wtS1 wtS2 : ℚ)
    (up1 up2 : Option WeatherPayload)
    (hr : st.rates = some r)
    (h1 : now1 - st.rates_time < CACHE_TTL)
    (h2 : now2 - st.rates_time < CACHE_TTL)
    (he : wLookup st.weather (lat, lon) = some e)
    (hw1 : wnow1 - e.time < CACHE_TTL)
    (hw2 : wnow2 - e.time < CACHE_TTL) :
    get_currency st now1 tS1 tR1 usd1 eur1 lira1 = (st, .text (currencyMessage r tR1))
    ∧ get_currency st now2 tS2 tR2 usd2 eur2 lira2 = (st, .text (currencyMessage r tR2))
    ∧ (fetch_weather st lat lon wnow1 wtS1 up1).2 = some e.data
    ∧ (fetch_weather (fetch_weather st lat lon wnow1 wtS1 up1).1
        lat lon wnow2 wtS2 up2).2 = some e.data := by
  have hs1 : wLookup (sweepWeather st.weather wnow1) (lat, lon) = some e :=
    wLookup_sweepWeather _ _ _ _ he hw1
  have f1 := fetch_weather_hit st lat lon wnow1 wtS1 up1 e hs1 hw1
  have hs2 : wLookup (sweepWeather (sweepWeather st.weather wnow1) wnow2) (lat, lon)
      = some e := wLookup_sweepWeather _ _ _ _ hs1 hw2
  have f2 := fetch_weather_hit { st with weather := sweepWeather st.weather wnow1 }
    lat lon wnow2 wtS2 up2 e hs2 hw2
  refine ⟨get_currency_fresh st now1 tS1 tR1 usd1 eur1 lira1 r hr h1,
          get_currency_fresh st now2 tS2 tR2 usd2 eur2 lira2 r hr h2,
          by rw [f1], ?_⟩
  rw [f1]
  rw [f2]

/-- Concrete instantiation of the fresh-read theorem: the demonstration
state read twice at times 50 and 100 in both domains. -/
theorem fresh_cache_read_witness :
    ((50 : ℚ) - 10 < CACHE_TTL ∧ (100 : ℚ) - 10 < CACHE_TTL
      ∧ wLookup demoState.weather (41, 29) = some ⟨demoPayload, 10⟩)
    ∧ (get_currency demoState 50 50 50 demoFx demoFx demoFx
        = (demoState, .text (currencyMessage ⟨41, 45, 3⟩ 50))
      ∧ get_currency demoState 100 100 100 demoFx demoFx demoFx
        = (demoState, .text (currencyMessage ⟨41, 45, 3⟩ 100))
      ∧ (fetch_weather demoState 41 29 50 50 none).2 = some demoPayload
      ∧ (fetch_weather (fetch_weather demoState 41 29 50 50 none).1
          41 29 100 100 none).2 = some demoPayload) :=
  ⟨⟨by norm_num [CACHE_TTL], by norm_num [CACHE_TTL], rfl⟩,
   fresh_cache_read_serves_stored_value demoState ⟨41, 45, 3⟩ 50 50 50 100 100 100
     demoFx demoFx demoFx demoFx demoFx demoFx 41 29 ⟨demoPayload, 10⟩ 50 100 50 100
     none none rfl (by norm_num [CACHE_TTL, demoState]) (by norm_num [CACHE_TTL, demoState])
     rfl (by norm_num [CACHE_TTL]) (by norm_num [CACHE_TTL])⟩

/-- C4: a weather access for one coordinate key never removes or alters
a fresh entry under a different key, and a successful refresh for a
previously absent key stores its own entry under its own key. -/
theorem distinct_weather_keys_do_not_interfere
    (st : CacheState) (lat lon now tS : ℚ) (up : Option WeatherPayload)
    (k2 : WKey) (e2 : WEntry) (d : WeatherPayload)
    (hne : k2 ≠ (lat, lon))
    (h2 : wLookup st.weather k2 = some e2)
    (hfresh : now - e2.time < CACHE_TTL) :
    wLookup ((fetch_weather st lat lon now tS up).1).weather k2 = some e2
    ∧ (wLookup st.weather (lat, lon) = none → up = some d →
        wLookup ((fetch_weather st lat lon now tS up).1).weather (lat, lon)
          = some ⟨d, tS⟩) := by
  have hk2 : wLookup (sweepWeather st.weather now) k2 = some e2 :=
    wLookup_sweepWeather _ _ _ _ h2 hfresh
  constructor
  · cases hl : wLookup (sweepWeather st.weather now) (lat, lon) with
    | some e =>
        have hf := sweepWeather_found_fresh st.weather now (lat, lon) e hl
        rw [fetch_weather_hit st lat lon now tS up e hl hf]
        exact hk2
    | none =>
        cases up with
        | none => rw [fetch_weather_miss_fail st lat lon now tS hl]; exact hk2
        | some d0 =>
            rw [fetch_weather_miss_ok st lat lon now tS d0 hl]
            show wLookup (wInsert (sweepWeather st.weather now) (lat, lon)
              ⟨d0, tS⟩) k2 = some e2
            rw [wLookup_wInsert_ne _ _ _ _ hne]
            exact hk2
  · intro hmiss hup
    subst hup
    have hl : wLookup (sweepWeather st.weather now) (lat, lon) = none :=
      wLookup_sweepWeather_none _ _ _ hmiss
    rw [fetch_weather_miss_ok st lat lon now tS d hl]
    show wLookup (wInsert (sweepWeather st.weather now) (lat, lon)
      ⟨d, tS⟩) (lat, lon) = some ⟨d, tS⟩
    exact wLookup_wInsert_self _ _ _

/-- Concrete instantiation of the key-independence theorem: a refresh
for (50, 30) with an empty prior entry leaves the fresh (41, 29) entry
of the demonstration state intact and stores its own. -/
theorem distinct_weather_keys_witness :
    ((41, 29) ≠ ((50 : ℚ), (30 : ℚ))
      ∧ wLookup demoState.weather (41, 29) = some ⟨demoPayload, 10⟩
      ∧ (20 : ℚ) - 10 < CACHE_TTL)
    ∧ (wLookup ((fetch_weather demoState 50 30 20 20
          (some ⟨none, some 5, some 4, some "дождь"⟩)).1).weather (41, 29)
        = some ⟨demoPayload, 10⟩
      ∧ (wLookup demoState.weather (50, 30) = none →
          some ⟨none, some 5, some 4, some "дождь"⟩
            = some (⟨none, some 5, some 4, some "дождь"⟩ : WeatherPayload) →
          wLookup ((fetch_weather demoState 50 30 20 20
            (some ⟨none, some 5, some 4, some "дождь"⟩)).1).weather (50, 30)
            = some ⟨⟨none, some 5, some 4, some "дождь"⟩, 20⟩)) :=
  ⟨⟨by norm_num, rfl, by norm_num [CACHE_TTL]⟩,
   distinct_weather_keys_do_not_interfere demoState 50 30 20 20
     (some ⟨none, some 5, some 4, some "дождь"⟩) (41, 29) ⟨demoPayload, 10⟩
     ⟨none, some 5, some 4, some "дождь"⟩ (by norm_num) rfl
     (by norm_num [CACHE_TTL])⟩

/-- Demonstration stale state: one weather entry aged far past the TTL
and no rates snapshot. -/
def staleState : CacheState := ⟨none, 0, [((41, 29), ⟨demoPayload, 0⟩)]⟩

/-- C5: on the currency slow path, failure of any one of the three
constituent calls (non-2xx status or missing key in its body) fails the
whole refresh with the cache left untouched, and a snapshot is cached
exactly when all three rates were obtained, as a whole. -/
theorem currency_refresh_all_or_nothing
    (st : CacheState) (now tS tR : ℚ) (usd eur lira : FxResponse) (a b c : ℚ)
    (hstale : st.rates = none ∨ CACHE_TTL ≤ now - st.rates_time) :
    ((usd.status_ok = false ∨ eur.status_ok = false ∨ lira.status_ok = false
        ∨ lookupRate usd "TRY" = none ∨ lookupRate eur "TRY" = none
        ∨ lookupRate lira "RUB" = none) →
      get_currency st now tS tR usd eur lira = (st, .text currencyFailText))
    ∧ (usd.status_ok = true → eur.status_ok = true → lira.status_ok = true →
        lookupRate usd "TRY" = some a → lookupRate eur "TRY" = some b →
        lookupRate lira "RUB" = some c →
        get_currency st now tS tR usd eur lira =
          ({ st with rates := some ⟨a, b, c⟩, rates_time := tS },
           .text (currencyMessage ⟨a, b, c⟩ tR))) := by
  rw [get_currency_stale st now tS tR usd eur lira hstale]
  constructor
  · rintro (h | h | h | h | h | h) <;> simp [currencyRefresh, fetchRates, h]
  · intro h1 h2 h3 h4 h5 h6
    simp [currencyRefresh, fetchRates, h1, h2, h3, h4, h5, h6]

/-- Concrete instantiation of the all-or-nothing theorem: with an empty
cache, a failed USD call writes nothing and replies with the apology,
while three good responses store the full snapshot. -/
theorem currency_refresh_witness :
    ((⟨none, 0, []⟩ : CacheState).rates = none ∧ (⟨false, []⟩ : FxResponse).status_ok = false
      ∧ lookupRate demoFx "TRY" = some 41 ∧ lookupRate demoFx "RUB" = some 3)
    ∧ (get_currency ⟨none, 0, []⟩ 200 200 200 ⟨false, []⟩ demoFx demoFx
        = (⟨none, 0, []⟩, .text currencyFailText)
      ∧ get_currency ⟨none, 0, []⟩ 200 200 200 demoFx demoFx demoFx
        = (⟨some ⟨41, 41, 3⟩, 200, []⟩, .text (currencyMessage ⟨41, 41, 3⟩ 200))) :=
  ⟨⟨rfl, rfl, rfl, rfl⟩,
   (currency_refresh_all_or_nothing ⟨none, 0, []⟩ 200 200 200 ⟨false, []⟩ demoFx demoFx
     41 41 3 (Or.inl rfl)).1 (Or.inl rfl),
   (currency_refresh_all_or_nothing ⟨none, 0, []⟩ 200 200 200 demoFx demoFx demoFx
     41 41 3 (Or.inl rfl)).2 rfl rfl rfl rfl rfl rfl⟩

/-- C1 counterexample: with a stale weather entry under (41, 29), a
failed refresh attempt for that key does not leave the cache as it was:
the sweep at the top of the access has already deleted the stale entry,
so the entry before the call differs from the entry after it. -/
theorem failed_refresh_alters_cache_counterexample :
    wLookup staleState.weather (41, 29) = some ⟨demoPayload, 0⟩
    ∧ (fetch_weather staleState 41 29 200 200 none).2 = none
    ∧ wLookup ((fetch_weather staleState 41 29 200 200 none).1).weather (41, 29)
      = none := by
  have hsweep : sweepWeather staleState.weather 200 = [] := by
    norm_num [staleState, sweepWeather, List.filter, CACHE_TTL]
  have hl : wLookup (sweepWeather staleState.weather 200) (41, 29) = none := by
    rw [hsweep]; rfl
  refine ⟨rfl, ?_, ?_⟩
  · rw [fetch_weather_miss_fail staleState 41 29 200 200 hl]
  · rw [fetch_weather_miss_fail staleState 41 29 200 200 hl]
    exact hl

/-- C1 (amended): a failed refresh writes no entry, propagates the
failure instead of serving any stale value, and leaves the rates entry
— timestamp included — untouched; on the weather side the opportunistic
sweep that runs at the start of the access may already have removed
stale entries (including a stale entry under the requested key), but
every fresh entry survives unchanged and the requested key ends the
call with no entry. -/
theorem failed_refresh_writes_nothing
    (st : CacheState) (now tS tR wlat wlon wnow wtS : ℚ)
    (usd eur lira : FxResponse)
    (hstale : st.rates = none ∨ CACHE_TTL ≤ now - st.rates_time)
    (hfail : fetchRates usd eur lira = none)
    (hwmiss : wLookup (sweepWeather st.weather wnow) (wlat, wlon) = none) :
    get_currency st now tS tR usd eur lira = (st, .text currencyFailText)
    ∧ (fetch_weather st wlat wlon wnow wtS none).1
        = { st with weather := sweepWeather st.weather wnow }
    ∧ (fetch_weather st wlat wlon wnow wtS none).2 = none
    ∧ (∀ k e, wLookup st.weather k = some e → wnow - e.time < CACHE_TTL →
        wLookup ((fetch_weather st wlat wlon wnow wtS none).1).weather k = some e)
    ∧ wLookup ((fetch_weather st wlat wlon wnow wtS none).1).weather (wlat, wlon)
      = none := by
  have hfw := fetch_weather_miss_fail st wlat wlon wnow wtS hwmiss
  refine ⟨?_, by rw [hfw], by rw [hfw], ?_, ?_⟩
  · rw [get_currency_stale st now tS tR usd eur lira hstale]
    simp [currencyRefresh, hfail]
  · intro k e hk he
    rw [hfw]
    exact wLookup_sweepWeather st.weather wnow k e hk he
  · rw [hfw]
    exact hwmiss

/-- Concrete instantiation of the amended failed-refresh theorem on the
demonstration stale state at time 200. -/
theorem failed_refresh_writes_nothing_witness :
    (staleState.rates = none ∧ fetchRates ⟨false, []⟩ demoFx demoFx = none
      ∧ wLookup (sweepWeather staleState.weather 200) (41, 29) = none)
    ∧ (get_currency staleState 200 200 200 ⟨false, []⟩ demoFx demoFx
        = (staleState, .text currencyFailText)
      ∧ (fetch_weather staleState 41 29 200 200 none).1
        = { staleState with weather := sweepWeather staleState.weather 200 }
      ∧ (fetch_weather staleState 41 29 200 200 none).2 = none
      ∧ (∀ k e, wLookup staleState.weather k = some e → (200 : ℚ) - e.time < CACHE_TTL →
          wLookup ((fetch_weather staleState 41 29 200 200 none).1).weather k = some e)
      ∧ wLookup ((fetch_weather staleState 41 29 200 200 none).1).weather (41, 29)
        = none) := by
  have hmiss : wLookup (sweepWeather staleState.weather 200) (41, 29) = none := by
    have hsweep : sweepWeather staleState.weather 200 = [] := by
      norm_num [staleState, sweepWeather, List.filter, CACHE_TTL]
    rw [hsweep]; rfl
  exact ⟨⟨rfl, rfl, hmiss⟩,
    failed_refresh_writes_nothing staleState 200 200 200 41 29 200 200
      ⟨false, []⟩ demoFx demoFx (Or.inl rfl) rfl hmiss⟩

/-- C3 at the failing input: an HTTP 200 response whose body parses as
JSON but lacks the expected fields (an empty object) is written to the
weather cache by fetch_weather, and the handler then dies on the
formatting step outside its try block, so the exception escapes
get_weather uncaught instead of becoming the failure message. -/
theorem malformed_payload_cached_and_uncaught :
    (get_weather ⟨none, 0, []⟩ (some (41, 29)) 100 100
        (some ⟨none, none, none, none⟩)).2 = .uncaught
    ∧ wLookup ((get_weather ⟨none, 0, []⟩ (some (41, 29)) 100 100
        (some ⟨none, none, none, none⟩)).1).weather (41, 29)
      = some ⟨⟨none, none, none, none⟩, 100⟩ :=
  ⟨rfl, rfl⟩

/-- Evaluation of the fixed-point rendering at the USD scenario rate. -/
theorem fmtFixed_usd : fmtFixed 2 ((4123 : ℚ)/100) = "41.23" := by
  have h : roundHalfEven ((4123 : ℚ)/100 * 10 ^ 2) = 4123 := by
    unfold roundHalfEven; norm_num
  simp only [fmtFixed, h]; rfl

/-- Evaluation of the fixed-point rendering at the EUR scenario rate:
the trailing zero of 45.10 is kept. -/
theorem fmtFixed_eur : fmtFixed 2 ((451 : ℚ)/10) = "45.10" := by
  have h : roundHalfEven ((451 : ℚ)/10 * 10 ^ 2) = 4510 := by
    unfold roundHalfEven; norm_num
  simp only [fmtFixed, h]; rfl

/-- Evaluation of the fixed-point rendering at the RUB scenario rate. -/
theorem fmtFixed_rub : fmtFixed 2 ((68 : ℚ)/25) = "2.72" := by
  have h : roundHalfEven ((68 : ℚ)/25 * 10 ^ 2) = 272 := by
    unfold roundHalfEven; norm_num
  simp only [fmtFixed, h]; rfl

/-- Evaluation of the one-decimal rendering at temperature 18.456,
which rounds up to 18.5. -/
theorem fmtFixed_temp : fmtFixed 1 ((18456 : ℚ)/1000) = "18.5" := by
  have h : roundHalfEven ((18456 : ℚ)/1000 * 10 ^ 1) = 185 := by
    unfold roundHalfEven
    have hf : ⌊(18456 : ℚ)/1000 * 10 ^ 1⌋ = 184 := by
      rw [show (18456 : ℚ)/1000 * 10 ^ 1 = 2307/12.5 from by norm_num]
      norm_num [Int.floor_eq_iff]
    rw [hf]
    norm_num
  simp only [fmtFixed, h]; rfl

/-- Evaluation of the one-decimal rendering at feels-like 17.2. -/
theorem fmtFixed_feels : fmtFixed 1 ((172 : ℚ)/10) = "17.2" := by
  have h : roundHalfEven ((172 : ℚ)/10 * 10 ^ 1) = 172 := by
    unfold roundHalfEven; norm_num
  simp only [fmtFixed, h]; rfl

/-- Containment witness builder: a pattern sitting inside the literal
tail of a three-part concatenation. -/
theorem containsStr_of_parts (A m T pat x y : String)
    (h : T.data = x.data ++ pat.data ++ y.data) :
    containsStr (A ++ m ++ T) pat := by
  refine ⟨A.data ++ m.data ++ x.data, y.data, ?_⟩
  simp [String.data_append, h, List.append_assoc]

/-- Containment witness builder: a pattern spanning the middle part of
a concatenation. -/
theorem containsStr_mid (A1 A2 m T1 T2 : String) :
    containsStr (A1 ++ A2 ++ m ++ (T1 ++ T2)) (A2 ++ m ++ T1) := by
  refine ⟨A1.data, T2.data, ?_⟩
  simp [String.data_append, List.append_assoc]

/-- C6: at the scenario rates 41.23 TRY per USD, 45.10 TRY per EUR and
2.72 RUB per TRY, the rendered reply contains the three expected lines
for every render time; and in general the rendering of any rate has a
decimal point followed by exactly two digits at the end. -/
theorem currency_scenario_rendering (t q : ℚ) :
    containsStr (currencyMessage ⟨4123/100, 451/10, 68/25⟩ t) "1 USD = 41.23 TRY"
    ∧ containsStr (currencyMessage ⟨4123/100, 451/10, 68/25⟩ t) "1 EUR = 45.10 TRY"
    ∧ containsStr (currencyMessage ⟨4123/100, 451/10, 68/25⟩ t) "1 TRY = 2.72 RUB"
    ∧ ∃ pre post : List Char, (fmtFixed 2 q).data = pre ++ ".".data ++ post
        ∧ post.length = 2 := by
  have hmsg : currencyMessage ⟨4123/100, 451/10, 68/25⟩ t
      = "💱 Курсы валют (обновленно " ++ fmtClock t
        ++ " UTC):\n1 USD = 41.23 TRY\n1 EUR = 45.10 TRY\n1 TRY = 2.72 RUB" := by
    simp only [currencyMessage, fmtFixed_usd, fmtFixed_eur, fmtFixed_rub,
      String.append_assoc]
    congr 1
  refine ⟨?_, ?_, ?_, ?_⟩
  · rw [hmsg]
    exact containsStr_of_parts _ _ _ _ " UTC):\n"
      "\n1 EUR = 45.10 TRY\n1 TRY = 2.72 RUB" rfl
  · rw [hmsg]
    exact containsStr_of_parts _ _ _ _ " UTC):\n1 USD = 41.23 TRY\n"
      "\n1 TRY = 2.72 RUB" rfl
  · rw [hmsg]
    exact containsStr_of_parts _ _ _ _
      " UTC):\n1 USD = 41.23 TRY\n1 EUR = 45.10 TRY\n" "" rfl
  · refine ⟨((if roundHalfEven (q * (10 : ℚ) ^ 2) < 0 then "-" else "")
      ++ toString ((roundHalfEven (q * (10 : ℚ) ^ 2)).natAbs / 10 ^ 2)).data,
      (String.mk (natDigitsPadded 2 ((roundHalfEven (q * (10 : ℚ) ^ 2)).natAbs
        % 10 ^ 2))).data, ?_, ?_⟩
    · simp [fmtFixed, String.data_append]
    · simp [natDigitsPadded]

/-- C7: the scenario payload with temperature 18.456, feels-like 17.2
and description "ясно" renders to the expected message: one decimal
place for each temperature and the description capitalized. -/
theorem weather_scenario_rendering :
    format_weather_message
        ⟨some "Стамбул", some (18456/1000), some (172/10), some "ясно"⟩
      = some "🌍 Погода для Стамбул:\n🌡 Температура: 18.5°C\n🤗 Ощущается как: 17.2°C\n☁️ Ясно"
    ∧ containsStr
        "🌍 Погода для Стамбул:\n🌡 Температура: 18.5°C\n🤗 Ощущается как: 17.2°C\n☁️ Ясно"
        "18.5°C"
    ∧ containsStr
        "🌍 Погода для Стамбул:\n🌡 Температура: 18.5°C\n🤗 Ощущается как: 17.2°C\n☁️ Ясно"
        "17.2°C"
    ∧ containsStr
        "🌍 Погода для Стамбул:\n🌡 Температура: 18.5°C\n🤗 Ощущается как: 17.2°C\n☁️ Ясно"
        "Ясно" := by
  refine ⟨?_, ?_, ?_, ?_⟩
  · simp only [format_weather_message, fmtFixed_temp, fmtFixed_feels]
    rfl
  · exact ⟨"🌍 Погода для Стамбул:\n🌡 Температура: ".data,
      "\n🤗 Ощущается как: 17.2°C\n☁️ Ясно".data, rfl⟩
  · exact ⟨"🌍 Погода для Стамбул:\n🌡 Температура: 18.5°C\n🤗 Ощущается как: ".data,
      "\n☁️ Ясно".data, rfl⟩
  · exact ⟨"🌍 Погода для Стамбул:\n🌡 Температура: 18.5°C\n🤗 Ощущается как: 17.2°C\n☁️ ".data,
      "".data, rfl⟩

/-- C9: the timestamp rendered after the word обновленно is the
wall-clock reading at render time: a fresh cache hit replies with the
message rendered at tR, that message contains the clock rendering of tR
itself, and the reply is unchanged under any other (fresh) stored
fetch timestamp, so the shown time never derives from fetched_at. -/
theorem currency_timestamp_is_render_time
    (st : CacheState) (r : Rates) (now tS tR t2 : ℚ)
    (usd eur lira usd2 eur2 lira2 : FxResponse)
    (hr : st.rates = some r)
    (h1 : now - st.rates_time < CACHE_TTL)
    (h2 : now - t2 < CACHE_TTL) :
    get_currency st now tS tR usd eur lira = (st, .text (currencyMessage r tR))
    ∧ containsStr (currencyMessage r tR) ("обновленно " ++ fmtClock tR ++ " UTC")
    ∧ (get_currency { st with rates_time := t2 } now tS tR usd2 eur2 lira2).2
        = .text (currencyMessage r tR) := by
  have hm : currencyMessage r tR
      = "💱 Курсы валют (" ++ "обновленно " ++ fmtClock tR
        ++ (" UTC" ++ ("):\n" ++ ("1 USD = " ++ fmtFixed 2 r.usd_try ++ " TRY\n"
          ++ "1 EUR = " ++ fmtFixed 2 r.eur_try ++ " TRY\n"
          ++ "1 TRY = " ++ fmtFixed 2 r.try_rub ++ " RUB"))) := by
    simp only [currencyMessage,
      show ("💱 Курсы валют (обновленно " : String)
        = "💱 Курсы валют (" ++ "обновленно " from rfl,
      show (" UTC):\n" : String) = " UTC" ++ "):\n" from rfl,
      String.append_assoc]
  refine ⟨get_currency_fresh st now tS tR usd eur lira r hr h1, ?_, ?_⟩
  · rw [hm]
    exact containsStr_mid "💱 Курсы валют (" "обновленно " (fmtClock tR) " UTC" _
  · rw [get_currency_fresh { st with rates_time := t2 } now tS tR usd2 eur2 lira2 r
      hr h2]

/-- Concrete instantiation of the render-time timestamp theorem on the
demonstration state, read at time 50 and rendered at time 77 against
the alternative stored timestamp 20. -/
theorem currency_timestamp_witness :
    (demoState.rates = some ⟨41, 45, 3⟩ ∧ (50 : ℚ) - demoState.rates_time < CACHE_TTL
      ∧ (50 : ℚ) - 20 < CACHE_TTL)
    ∧ (get_currency demoState 50 60 77 demoFx demoFx demoFx
        = (demoState, .text (currencyMessage ⟨41, 45, 3⟩ 77))
      ∧ containsStr (currencyMessage ⟨41, 45, 3⟩ 77)
          ("обновленно " ++ fmtClock 77 ++ " UTC")
      ∧ (get_currency { demoState with rates_time := 20 } 50 60 77
          demoFx demoFx demoFx).2 = .text (currencyMessage ⟨41, 45, 3⟩ 77)) :=
  ⟨⟨rfl, by norm_num [CACHE_TTL, demoState], by norm_num [CACHE_TTL]⟩,
   currency_timestamp_is_render_time demoState ⟨41, 45, 3⟩ 50 60 77 20
     demoFx demoFx demoFx demoFx demoFx demoFx rfl
     (by norm_num [CACHE_TTL, demoState]) (by norm_num [CACHE_TTL])⟩

/-- C10: when the payload name is absent or null (None) or the empty
string, the rendered message falls back to вашего местоположения;
any other name is used verbatim. -/
theorem weather_location_name_fallback (nm : Option String) (t f : ℚ) (ds : String) :
    ((nm = none ∨ nm = some "") →
      format_weather_message ⟨nm, some t, some f, some ds⟩
        = some ("🌍 Погода для " ++ fallbackLocation ++ ":\n"
          ++ "🌡 Температура: " ++ fmtFixed 1 t ++ "°C\n"
          ++ "🤗 Ощущается как: " ++ fmtFixed 1 f ++ "°C\n"
          ++ "☁️ " ++ pyCapitalize ds))
    ∧ (∀ s : String, s ≠ "" → nm = some s →
      format_weather_message ⟨nm, some t, some f, some ds⟩
        = some ("🌍 Погода для " ++ s ++ ":\n"
          ++ "🌡 Температура: " ++ fmtFixed 1 t ++ "°C\n"
          ++ "🤗 Ощущается как: " ++ fmtFixed 1 f ++ "°C\n"
          ++ "☁️ " ++ pyCapitalize ds)) := by
  constructor
  · rintro (rfl | rfl) <;> simp [format_weather_message, pyLocationName]
  · intro s hs h
    subst h
    simp [format_weather_message, pyLocationName, hs]

/-- Concrete instantiation of the location fallback theorem: an empty
name falls back, a real name is used verbatim. -/
theorem weather_location_name_witness :
    format_weather_message ⟨some "", some 18, some 17, some "ясно"⟩
      = some ("🌍 Погода для " ++ fallbackLocation ++ ":\n"
        ++ "🌡 Температура: " ++ fmtFixed 1 18 ++ "°C\n"
        ++ "🤗 Ощущается как: " ++ fmtFixed 1 17 ++ "°C\n"
        ++ "☁️ " ++ pyCapitalize "ясно")
    ∧ format_weather_message ⟨some "Стамбул", some 18, some 17, some "ясно"⟩
      = some ("🌍 Погода для " ++ "Стамбул" ++ ":\n"
        ++ "🌡 Температура: " ++ fmtFixed 1 18 ++ "°C\n"
        ++ "🤗 Ощущается как: " ++ fmtFixed 1 17 ++ "°C\n"
        ++ "☁️ " ++ pyCapitalize "ясно") :=
  ⟨(weather_location_name_fallback (some "") 18 17 "ясно").1 (Or.inr rfl),
   (weather_location_name_fallback (some "Стамбул") 18 17 "ясно").2 "Стамбул"
     (by simp) rfl⟩

end IstanbulAssistant
